import Mathlib

/-!
Shallow embedding of the VanTrack frontend ledger logic.

The embedding follows the TypeScript source:
- `types.ts`: the `Transaction`, `DraftTransaction`, `Contact` and
  `BalanceSummary` shapes.  At runtime the `type` and `account` fields are
  plain JavaScript strings (the API layer casts them with `as`, which is a
  no-op at runtime), so they are modelled as `String`.
- `App.tsx`: `mapApiTransaction`, the `balances` reducer,
  `handleTotalCashUpdate`, `discardDraft`, `deleteTransaction`,
  `confirmDraft`'s state, and the draft list handling.
- `LedgerView.tsx`: `debtTxs`, `paymentTxs`, `totals`, `getLinkedPayments`.
- `CreditManagement.tsx`: the `contactData` per-contact aggregation and its
  `targetId` contact resolution.

Monetary amounts are JavaScript numbers in the source; they are modelled as
exact rationals (`ℚ`), the standard idealisation for decimal amounts.
Optional (possibly `undefined`/`null`) fields are modelled as `Option`;
JavaScript truthiness on strings (`"" `is falsy) and numbers (`0` is falsy)
is made explicit by `jsStrOrNone` / `jsNumOrNone`.
-/

namespace VanTrack

/-- Models JavaScript `s || undefined` for an optional string: `null`,
`undefined` and the empty string are falsy and become `undefined`. -/
def jsStrOrNone (s : Option String) : Option String :=
  match s with
  | none => none
  | some x => if x = "" then none else some x

/-- Models JavaScript `n || undefined` for an optional number: `null`,
`undefined` and `0` are falsy and become `undefined`. -/
def jsNumOrNone (n : Option ℚ) : Option ℚ :=
  match n with
  | none => none
  | some x => if x = 0 then none else some x

/-- Models JavaScript `String.prototype.toLowerCase` (character-wise). -/
def jsToLower (s : String) : String := ⟨s.data.map Char.toLower⟩

/-- The derived aggregate `{cash, bank, credit, loan}` from `types.ts`. -/
structure BalanceSummary where
  cash : ℚ
  bank : ℚ
  credit : ℚ
  loan : ℚ
deriving Repr, DecidableEq

/-- The initial accumulator `{ cash: 0, bank: 0, credit: 0, loan: 0 }`. -/
def zeroBalance : BalanceSummary := ⟨0, 0, 0, 0⟩

/-- The client-side `Transaction` record from `types.ts`.  `type` and
`account` are runtime strings; optional fields are `Option`. -/
structure Transaction where
  id : String
  date : String := ""
  dueDate : Option String := none
  amount : ℚ
  description : String := ""
  category : String := ""
  type : String
  account : String
  contact : Option String := none
  contactId : Option String := none
  linkedTransactionId : Option String := none
  remainingAmount : Option ℚ := none
  status : Option String := none
deriving Repr, DecidableEq

/-- The wire shape `TransactionResponse` from `services/api.ts`
(nullable fields modelled as `Option`). -/
structure TransactionResponse where
  id : String
  user_id : String := ""
  date : String := ""
  due_date : Option String := none
  amount : ℚ
  description : String := ""
  category : Option String := none
  type : String
  account : String
  contact_name : Option String := none
  contact_id : Option String := none
  linked_transaction_id : Option String := none
  remaining_amount : Option ℚ := none
  status : Option String := none
  created_at : String := ""
  updated_at : String := ""
deriving Repr, DecidableEq

/-- `mapApiTransaction` from `App.tsx`.  Notably `remaining_amount ||
undefined` collapses a server-sent `0` to `undefined`, and the `as` casts
on `type`/`account` perform no runtime validation. -/
def mapApiTransaction (tx : TransactionResponse) : Transaction :=
  { id := tx.id
    date := tx.date
    dueDate := jsStrOrNone tx.due_date
    amount := tx.amount
    description := tx.description
    category := tx.category.getD ""
    type := tx.type
    account := tx.account
    contact := jsStrOrNone tx.contact_name
    contactId := jsStrOrNone tx.contact_id
    linkedTransactionId := jsStrOrNone tx.linked_transaction_id
    remainingAmount := jsNumOrNone tx.remaining_amount
    status := jsStrOrNone tx.status }

/-- Models the dynamic index update `acc[acct] += d` on a `BalanceSummary`:
only the `cash` or `bank` property can be named by `acct` in well-typed
data; any other string leaves the four summary fields untouched. -/
def updAccount (b : BalanceSummary) (acct : String) (d : ℚ) : BalanceSummary :=
  if acct = "cash" then { b with cash := b.cash + d }
  else if acct = "bank" then { b with bank := b.bank + d }
  else b

/-- One step of the `balances` reducer in `App.tsx`: the `switch (tx.type)`
body.  A `type` matching no case leaves the accumulator unchanged (the
switch has no default). -/
def stepBalance (acc : BalanceSummary) (tx : Transaction) : BalanceSummary :=
  if tx.type = "income" then updAccount acc tx.account tx.amount
  else if tx.type = "expense" then updAccount acc tx.account (-tx.amount)
  else if tx.type = "credit_receivable" then { acc with credit := acc.credit + tx.amount }
  else if tx.type = "credit_payable" then { acc with loan := acc.loan + tx.amount }
  else if tx.type = "loan_receivable" then
    let a := updAccount acc tx.account (-tx.amount)
    { a with credit := a.credit + tx.amount }
  else if tx.type = "loan_payable" then
    let a := updAccount acc tx.account tx.amount
    { a with loan := a.loan + tx.amount }
  else if tx.type = "payment_received" then
    let a := updAccount acc tx.account tx.amount
    { a with credit := a.credit - tx.amount }
  else if tx.type = "payment_made" then
    let a := updAccount acc tx.account (-tx.amount)
    { a with loan := a.loan - tx.amount }
  else if tx.type = "transfer" then updAccount acc tx.account (-tx.amount)
  else acc

/-- The `balances` computation in `App.tsx`:
`transactions.reduce(step, { cash: 0, bank: 0, credit: 0, loan: 0 })`. -/
def balances (transactions : List Transaction) : BalanceSummary :=
  transactions.foldl stepBalance zeroBalance

/-- Field-wise addition of two balance summaries (the `⊕` of the spec). -/
def addB (x y : BalanceSummary) : BalanceSummary :=
  ⟨x.cash + y.cash, x.bank + y.bank, x.credit + y.credit, x.loan + y.loan⟩

theorem addB_zero (x : BalanceSummary) : addB x zeroBalance = x := by
  simp [addB, zeroBalance]

theorem zero_addB (x : BalanceSummary) : addB zeroBalance x = x := by
  simp [addB, zeroBalance]

theorem addB_comm (x y : BalanceSummary) : addB x y = addB y x := by
  simp [addB]
  exact ⟨add_comm _ _, add_comm _ _, add_comm _ _, add_comm _ _⟩

theorem addB_assoc (x y z : BalanceSummary) :
    addB (addB x y) z = addB x (addB y z) := by
  simp [addB, add_assoc]

theorem updAccount_as_addB (b : BalanceSummary) (acct : String) (d : ℚ) :
    updAccount b acct d = addB b (updAccount zeroBalance acct d) := by
  unfold updAccount
  split_ifs <;> simp [addB, zeroBalance]

set_option maxHeartbeats 1000000 in
/-- Each reducer step only adds a per-transaction delta to the accumulator. -/
theorem stepBalance_as_addB (b : BalanceSummary) (tx : Transaction) :
    stepBalance b tx = addB b (stepBalance zeroBalance tx) := by
  simp only [stepBalance]
  split_ifs
  · exact updAccount_as_addB b tx.account tx.amount
  · exact updAccount_as_addB b tx.account (-tx.amount)
  · simp [addB, zeroBalance]
  · simp [addB, zeroBalance]
  · simp only [updAccount, zeroBalance]
    split_ifs <;> simp [addB]
  · simp only [updAccount, zeroBalance]
    split_ifs <;> simp [addB]
  · simp only [updAccount, zeroBalance]
    split_ifs <;> simp [addB, sub_eq_add_neg]
  · simp only [updAccount, zeroBalance]
    split_ifs <;> simp [addB, sub_eq_add_neg]
  · exact updAccount_as_addB b tx.account (-tx.amount)
  · simp [addB, zeroBalance]

theorem foldl_stepBalance_as_addB (txs : List Transaction) (b : BalanceSummary) :
    txs.foldl stepBalance b = addB b (balances txs) := by
  induction txs generalizing b with
  | nil => simp [balances, addB_zero]
  | cons t ts ih =>
      show (t :: ts).foldl stepBalance b = addB b (balances (t :: ts))
      have hb : (t :: ts).foldl stepBalance b = ts.foldl stepBalance (stepBalance b t) := rfl
      have hz : balances (t :: ts) = ts.foldl stepBalance (stepBalance zeroBalance t) := rfl
      rw [hb, hz, ih, ih, stepBalance_as_addB b t, addB_assoc]

theorem stepBalance_comm (b : BalanceSummary) (x y : Transaction) :
    stepBalance (stepBalance b x) y = stepBalance (stepBalance b y) x := by
  calc stepBalance (stepBalance b x) y
      = addB (addB b (stepBalance zeroBalance x)) (stepBalance zeroBalance y) := by
        rw [stepBalance_as_addB (stepBalance b x) y, stepBalance_as_addB b x]
    _ = addB (addB b (stepBalance zeroBalance y)) (stepBalance zeroBalance x) := by
        rw [addB_assoc, addB_assoc,
          addB_comm (stepBalance zeroBalance x) (stepBalance zeroBalance y)]
    _ = stepBalance (stepBalance b y) x := by
        rw [stepBalance_as_addB (stepBalance b y) x, stepBalance_as_addB b y]

theorem foldl_stepBalance_perm {l₁ l₂ : List Transaction} (h : l₁.Perm l₂) :
    ∀ b : BalanceSummary, l₁.foldl stepBalance b = l₂.foldl stepBalance b := by
  induction h with
  | nil => intro b; rfl
  | cons x _ ih => intro b; exact ih (stepBalance b x)
  | swap x y l =>
      intro b
      show l.foldl stepBalance (stepBalance (stepBalance b y) x)
        = l.foldl stepBalance (stepBalance (stepBalance b x) y)
      rw [stepBalance_comm]
  | trans _ _ ih₁ ih₂ => intro b; rw [ih₁ b, ih₂ b]

/-- The closed nine-member `TransactionType` enumeration from `types.ts`. -/
def validTypes : List String :=
  ["expense", "income", "transfer", "credit_receivable", "credit_payable",
   "loan_receivable", "loan_payable", "payment_received", "payment_made"]

/-- Written from the words of the spec's balance table (§4.1): addition of
`x` to "the specific `cash` or `bank` field named by the transaction's
`account` attribute".  The spec gives no row for any other account string,
so any other string is left as a no-op here and excluded by hypothesis in
the comparison theorem. -/
def specNamedAccountAdd (b : BalanceSummary) (acct : String) (x : ℚ) : BalanceSummary :=
  if acct = "cash" then { b with cash := b.cash + x }
  else if acct = "bank" then { b with bank := b.bank + x }
  else b

/-- Written from the words of the spec's balance table (§4.1), row by row;
the spec calls the table exhaustive, so types outside it are excluded by
hypothesis in the comparison theorem. -/
def specTableEffect (b : BalanceSummary) (tx : Transaction) : BalanceSummary :=
  if tx.type = "income" then specNamedAccountAdd b tx.account tx.amount
  else if tx.type = "expense" then specNamedAccountAdd b tx.account (-tx.amount)
  else if tx.type = "credit_receivable" then { b with credit := b.credit + tx.amount }
  else if tx.type = "credit_payable" then { b with loan := b.loan + tx.amount }
  else if tx.type = "loan_receivable" then
    let s := specNamedAccountAdd b tx.account (-tx.amount)
    { s with credit := s.credit + tx.amount }
  else if tx.type = "loan_payable" then
    let s := specNamedAccountAdd b tx.account tx.amount
    { s with loan := s.loan + tx.amount }
  else if tx.type = "payment_received" then
    let s := specNamedAccountAdd b tx.account tx.amount
    { s with credit := s.credit - tx.amount }
  else if tx.type = "payment_made" then
    let s := specNamedAccountAdd b tx.account (-tx.amount)
    { s with loan := s.loan - tx.amount }
  else if tx.type = "transfer" then specNamedAccountAdd b tx.account (-tx.amount)
  else b

/-- The four debt types filtered by `LedgerView.tsx`'s `debtTxs`. -/
def debtTypes : List String :=
  ["credit_receivable", "credit_payable", "loan_receivable", "loan_payable"]

/-- The two settling payment types filtered by `LedgerView.tsx`'s
`paymentTxs`. -/
def paymentTypeNames : List String := ["payment_received", "payment_made"]

/-- `debtTxs` from `LedgerView.tsx`. -/
def debtTxs (transactions : List Transaction) : List Transaction :=
  transactions.filter (fun t => debtTypes.contains t.type)

/-- `paymentTxs` from `LedgerView.tsx`. -/
def paymentTxs (transactions : List Transaction) : List Transaction :=
  transactions.filter (fun t => paymentTypeNames.contains t.type)

/-- The `{ receivable, payable }` accumulator of `LedgerView.tsx`'s
`totals` (also the per-contact sums of `CreditManagement.tsx`). -/
structure LedgerTotals where
  receivable : ℚ
  payable : ℚ
deriving Repr, DecidableEq

/-- One step of the `totals` reducer in `LedgerView.tsx`: uses
`tx.remainingAmount ?? tx.amount` and adds it to the receivable or payable
side by type; the same switch body appears in `CreditManagement.tsx`'s
`contactData`. -/
def ledgerStep (acc : LedgerTotals) (tx : Transaction) : LedgerTotals :=
  let remaining := tx.remainingAmount.getD tx.amount
  if tx.type = "credit_receivable" then { acc with receivable := acc.receivable + remaining }
  else if tx.type = "loan_receivable" then { acc with receivable := acc.receivable + remaining }
  else if tx.type = "credit_payable" then { acc with payable := acc.payable + remaining }
  else if tx.type = "loan_payable" then { acc with payable := acc.payable + remaining }
  else acc

/-- `totals` from `LedgerView.tsx`: Total Receivables / Total Payables over
the debt transactions. -/
def ledgerTotals (transactions : List Transaction) : LedgerTotals :=
  (debtTxs transactions).foldl ledgerStep ⟨0, 0⟩

/-- `getLinkedPayments` from `LedgerView.tsx`. -/
def getLinkedPayments (transactions : List Transaction) (txId : String) : List Transaction :=
  (paymentTxs transactions).filter (fun p => p.linkedTransactionId == some txId)

/-- The `Contact` record from `types.ts`. -/
structure Contact where
  id : String
  name : String
  phone : Option String := none
  email : Option String := none
  note : Option String := none
deriving Repr, DecidableEq

/-- The `debtRelatedTxs` filter of `CreditManagement.tsx`: debt or payment
types, or any transaction carrying a (truthy) contact name or contact id. -/
def debtRelatedTxs (transactions : List Transaction) : List Transaction :=
  transactions.filter (fun t =>
    (debtTypes ++ paymentTypeNames).contains t.type
      || (jsStrOrNone t.contact).isSome || (jsStrOrNone t.contactId).isSome)

/-- The `targetId` resolution inside `CreditManagement.tsx`'s `contactData`:
`t.contactId || contacts.find(c => c.name.toLowerCase() ===
t.contact?.toLowerCase())?.id`.  JavaScript truthiness of the string
`t.contactId` is modelled by `jsStrOrNone`; a missing `t.contact` makes the
comparison false for every contact. -/
def contactDataTargetId (contacts : List Contact) (t : Transaction) : Option String :=
  match jsStrOrNone t.contactId with
  | some cid => some cid
  | none =>
      (contacts.find? (fun c =>
        match t.contact with
        | some nm => jsToLower c.name == jsToLower nm
        | none => false)).map (fun c => c.id)

/-- The `if (!targetId) return;` guard after the resolution: a falsy
(absent or empty) target id attributes the transaction to no contact. -/
def contactAttribution (contacts : List Contact) (t : Transaction) : Option String :=
  jsStrOrNone (contactDataTargetId contacts t)

/-- The per-contact receivable/payable sums of `CreditManagement.tsx`'s
`contactData` for one contact id: transactions attributed to that contact,
reduced with the same `remainingAmount ?? amount` switch as the ledger
totals. -/
def contactData (contacts : List Contact) (transactions : List Transaction)
    (cid : String) : LedgerTotals :=
  ((debtRelatedTxs transactions).filter
    (fun t => contactAttribution contacts t == some cid)).foldl ledgerStep ⟨0, 0⟩

/-- Modelled from the spec: the backend service that computes
`remaining_amount` is not part of this frontend repository; spec §4.2 gives
`remainingAmount(D) = max(0, D.amount - Σ{P.amount : P.linkedTransactionId
== D.id, P.type ∈ {payment_received, payment_made}})`. -/
def serverRemainingAmount (transactions : List Transaction) (d : Transaction) : ℚ :=
  max 0 (d.amount -
    ((transactions.filter (fun p =>
        paymentTypeNames.contains p.type && p.linkedTransactionId == some d.id)).map
      (fun p => p.amount)).sum)

/-- The `DraftTransaction` shape from `types.ts`: a `Transaction` plus an
`actionStatus`. -/
structure DraftTransaction extends Transaction where
  actionStatus : String := "pending"
deriving Repr, DecidableEq

/-- The locally cached collections held by `App.tsx` in React state. -/
structure AppState where
  transactions : List Transaction
  pendingDrafts : List DraftTransaction
deriving Repr, DecidableEq

/-- `discardDraft` from `App.tsx`: on API success the draft is filtered out
of `pendingDrafts`; on API failure (the awaited call throws) the `catch`
block only logs, so both cached collections are untouched. -/
def discardDraft (s : AppState) (draftId : String) (apiOk : Bool) : AppState :=
  if apiOk then
    { s with pendingDrafts := s.pendingDrafts.filter (fun d => d.id ≠ draftId) }
  else s

/-- `deleteTransaction` from `App.tsx`: on API success the transaction is
filtered out of `transactions`; on API failure the `catch` block only logs,
so both cached collections are untouched. -/
def deleteTransaction (s : AppState) (i : String) (apiOk : Bool) : AppState :=
  if apiOk then
    { s with transactions := s.transactions.filter (fun t => t.id ≠ i) }
  else s

/-- The adjustment transaction built by `handleTotalCashUpdate` in
`App.tsx` (server-assigned fields such as `id` are irrelevant to balances
and left empty). -/
def adjustmentTransaction (difference : ℚ) : Transaction :=
  { id := ""
    date := ""
    amount := |difference|
    description := if 0 < difference then "Cash adjustment (found extra)"
      else "Cash adjustment (missing)"
    category := "adjustment"
    type := if 0 < difference then "income" else "expense"
    account := "cash" }

/-- `handleTotalCashUpdate` from `App.tsx` (successful API path): compares
the reported actual cash with `balances.cash` and, when they differ by more
than `0.01`, prepends one adjustment transaction. -/
def handleTotalCashUpdate (s : AppState) (actualCash : ℚ) : AppState :=
  let currentCash := (balances s.transactions).cash
  let difference := actualCash - currentCash
  if 1 / 100 < |difference| then
    { s with transactions := adjustmentTransaction difference :: s.transactions }
  else s

/-- Sample data used by the concrete witnesses (spec §8 scenario 3). -/
def txIncomeCash : Transaction :=
  { id := "t1", amount := 50, type := "income", account := "cash" }

def txExpenseCash : Transaction :=
  { id := "t2", amount := 20, type := "expense", account := "cash" }

def txLoanPayableBank : Transaction :=
  { id := "t3", amount := 200, type := "loan_payable", account := "bank" }

def draftSampleA : DraftTransaction :=
  { id := "d1", amount := 10, type := "expense", account := "cash" }

def draftSampleB : DraftTransaction :=
  { id := "d2", amount := 7, type := "income", account := "bank" }

def sampleState : AppState :=
  { transactions := [txIncomeCash], pendingDrafts := [draftSampleA, draftSampleB] }

theorem length_filter_ne_of_nodup (i : String) (l : List DraftTransaction)
    (hnd : (l.map (fun d => d.id)).Nodup) (hm : i ∈ l.map (fun d => d.id)) :
    (l.filter (fun d => d.id ≠ i)).length + 1 = l.length := by
  have h1 : (l.map (fun d => d.id)).count i = 1 := List.count_eq_one_of_mem hnd hm
  have h2 : l.countP (fun d => d.id == i) = 1 := by
    rw [List.count, List.countP_map] at h1
    simpa using h1
  have h := l.length_eq_countP_add_countP (fun d => d.id == i)
  have h4 : l.countP (fun a => decide (¬(a.id == i) = true))
      = l.countP (fun d => decide (d.id ≠ i)) :=
    List.countP_congr (fun a _ => by simp)
  have h5 : l.countP (fun d => decide (d.id ≠ i)) = (l.filter (fun d => d.id ≠ i)).length :=
    List.countP_eq_length_filter _ _
  omega

/-- C3: the balance summary of a concatenation of two transaction lists is
the field-wise sum of the two summaries, and the summary is invariant under
permutation of the list (the reducer is a fold over a set). -/
theorem balances_additive_and_permutation (l₁ l₂ : List Transaction) :
    balances (l₁ ++ l₂) = addB (balances l₁) (balances l₂)
      ∧ (l₁.Perm l₂ → balances l₁ = balances l₂) := by
  constructor
  · show (l₁ ++ l₂).foldl stepBalance zeroBalance = _
    rw [List.foldl_append]
    exact foldl_stepBalance_as_addB l₂ (balances l₁)
  · intro h
    exact foldl_stepBalance_perm h zeroBalance

/-- Witness for C3 at concrete inputs; the permutation hypothesis is
discharged with an explicit swap. -/
theorem balances_additive_and_permutation_witness :
    balances ([txIncomeCash, txExpenseCash] ++ [txLoanPayableBank])
        = addB (balances [txIncomeCash, txExpenseCash]) (balances [txLoanPayableBank])
      ∧ balances [txIncomeCash, txExpenseCash] = balances [txExpenseCash, txIncomeCash] :=
  ⟨(balances_additive_and_permutation [txIncomeCash, txExpenseCash] [txLoanPayableBank]).1,
   (balances_additive_and_permutation [txIncomeCash, txExpenseCash]
      [txExpenseCash, txIncomeCash]).2 (List.Perm.swap txExpenseCash txIncomeCash [])⟩

/-- C5: discarding a pending draft (successful API path) removes exactly
that draft from the pending list, keeps every other draft, and leaves the
cached transaction collection unchanged (no Transaction is created). -/
theorem discardDraft_removes_exactly_that_draft (s : AppState) (i : String)
    (hnd : (s.pendingDrafts.map (fun d => d.id)).Nodup)
    (hm : i ∈ s.pendingDrafts.map (fun d => d.id)) :
    (discardDraft s i true).transactions = s.transactions
      ∧ (∀ d ∈ (discardDraft s i true).pendingDrafts, d.id ≠ i)
      ∧ (∀ d ∈ s.pendingDrafts, d.id ≠ i → d ∈ (discardDraft s i true).pendingDrafts)
      ∧ (discardDraft s i true).pendingDrafts.length + 1 = s.pendingDrafts.length := by
  refine ⟨rfl, ?_, ?_, ?_⟩
  · intro d hd
    simp only [discardDraft, if_true, List.mem_filter, decide_eq_true_eq] at hd
    exact hd.2
  · intro d hd hne
    simp only [discardDraft, if_true, List.mem_filter, decide_eq_true_eq]
    exact ⟨hd, hne⟩
  · simpa [discardDraft] using length_filter_ne_of_nodup i s.pendingDrafts hnd hm

/-- Witness for C5 at a concrete two-draft state. -/
theorem discardDraft_removes_exactly_that_draft_witness :
    (discardDraft sampleState "d1" true).transactions = sampleState.transactions
      ∧ (∀ d ∈ (discardDraft sampleState "d1" true).pendingDrafts, d.id ≠ "d1")
      ∧ (∀ d ∈ sampleState.pendingDrafts, d.id ≠ "d1" →
          d ∈ (discardDraft sampleState "d1" true).pendingDrafts)
      ∧ (discardDraft sampleState "d1" true).pendingDrafts.length + 1
          = sampleState.pendingDrafts.length :=
  discardDraft_removes_exactly_that_draft sampleState "d1" (by decide) (by decide)

/-- C6: a settling payment whose `linkedTransactionId` matches no
transaction id in the list is attached to no debt's linked-payment history,
and never enters the debt list feeding the remaining-amount sums; the
derived views are total functions, so nothing throws. -/
theorem dangling_payment_attached_to_no_debt (transactions : List Transaction)
    (p : Transaction) (k : String)
    (_hp : p ∈ transactions)
    (hpay : paymentTypeNames.contains p.type = true)
    (hlink : p.linkedTransactionId = some k)
    (hdangling : ∀ t ∈ transactions, t.id ≠ k) :
    (∀ d ∈ transactions, p ∉ getLinkedPayments transactions d.id)
      ∧ p ∉ debtTxs transactions := by
  constructor
  · intro d hd hmem
    have hbeq := (List.mem_filter.mp hmem).2
    rw [hlink] at hbeq
    have hkd : k = d.id := by simpa using hbeq
    exact hdangling d hd hkd.symm
  · intro hmem
    have hdt := (List.mem_filter.mp hmem).2
    have hpay' : p.type = "payment_received" ∨ p.type = "payment_made" := by
      simpa [paymentTypeNames] using hpay
    rcases hpay' with h | h <;> simp [debtTypes, h] at hdt

def txDebtSample : Transaction :=
  { id := "t9", amount := 100, type := "credit_receivable", account := "cash" }

def txDanglingPayment : Transaction :=
  { id := "p9", amount := 40, type := "payment_received", account := "cash",
    linkedTransactionId := some "deleted" }

/-- Witness for C6: a payment linked to a deleted id among a concrete list. -/
theorem dangling_payment_attached_to_no_debt_witness :
    (∀ d ∈ [txDebtSample, txDanglingPayment],
        txDanglingPayment ∉ getLinkedPayments [txDebtSample, txDanglingPayment] d.id)
      ∧ txDanglingPayment ∉ debtTxs [txDebtSample, txDanglingPayment] :=
  dangling_payment_attached_to_no_debt [txDebtSample, txDanglingPayment]
    txDanglingPayment "deleted" (by decide) (by decide) rfl (by decide)

/-- C8: when the backing-store request throws, `deleteTransaction` and
`discardDraft` leave the locally cached collections exactly as they were. -/
theorem failed_mutation_leaves_state_unchanged (s : AppState) (i j : String) :
    deleteTransaction s i false = s ∧ discardDraft s j false = s := by
  constructor <;> simp [deleteTransaction, discardDraft]

/-- C9: recomputing the balance summary from an unchanged transaction list
yields identical results; the computation depends only on its input. -/
theorem balances_recompute_deterministic (l₁ l₂ : List Transaction) (h : l₁ = l₂) :
    balances l₁ = balances l₂ := by
  rw [h]

/-- Witness for C9 at a concrete list. -/
theorem balances_recompute_deterministic_witness :
    balances [txIncomeCash, txExpenseCash] = balances [txIncomeCash, txExpenseCash] :=
  balances_recompute_deterministic [txIncomeCash, txExpenseCash]
    [txIncomeCash, txExpenseCash] rfl

theorem stepBalance_eq_specTableEffect (b : BalanceSummary) (tx : Transaction)
    (hty : tx.type ∈ validTypes) (hacct : tx.account = "cash" ∨ tx.account = "bank") :
    stepBalance b tx = specTableEffect b tx := by
  have hup : ∀ (x : BalanceSummary) (d : ℚ),
      updAccount x tx.account d = specNamedAccountAdd x tx.account d := by
    intro x d
    rcases hacct with h | h <;> simp [updAccount, specNamedAccountAdd, h]
  simp only [validTypes, List.mem_cons, List.not_mem_nil, or_false] at hty
  rcases hty with h | h | h | h | h | h | h | h | h <;>
    simp [stepBalance, specTableEffect, h, hup]

theorem foldl_stepBalance_eq_foldl_specTableEffect (txs : List Transaction)
    (hty : ∀ tx ∈ txs, tx.type ∈ validTypes)
    (hacct : ∀ tx ∈ txs, tx.account = "cash" ∨ tx.account = "bank") :
    ∀ b : BalanceSummary, txs.foldl stepBalance b = txs.foldl specTableEffect b := by
  induction txs with
  | nil => intro b; rfl
  | cons t ts ih =>
      intro b
      have ht : stepBalance b t = specTableEffect b t :=
        stepBalance_eq_specTableEffect b t (hty t (List.mem_cons_self t ts))
          (hacct t (List.mem_cons_self t ts))
      show ts.foldl stepBalance (stepBalance b t) = ts.foldl specTableEffect (specTableEffect b t)
      rw [ht]
      exact ih (fun tx hx => hty tx (List.mem_cons_of_mem t hx))
        (fun tx hx => hacct tx (List.mem_cons_of_mem t hx)) (specTableEffect b t)

/-- C1: for transactions drawn from the closed type enumeration with a
`cash`/`bank` account, the `balances` reducer is exactly the fold of the
spec's per-type effect table from the all-zero summary. -/
theorem balances_match_spec_table (txs : List Transaction)
    (hty : ∀ tx ∈ txs, tx.type ∈ validTypes)
    (hacct : ∀ tx ∈ txs, tx.account = "cash" ∨ tx.account = "bank") :
    balances txs = txs.foldl specTableEffect zeroBalance :=
  foldl_stepBalance_eq_foldl_specTableEffect txs hty hacct zeroBalance

/-- Witness for C1 at a concrete three-transaction list. -/
theorem balances_match_spec_table_witness :
    balances [txIncomeCash, txExpenseCash, txLoanPayableBank]
      = [txIncomeCash, txExpenseCash, txLoanPayableBank].foldl specTableEffect zeroBalance :=
  balances_match_spec_table [txIncomeCash, txExpenseCash, txLoanPayableBank]
    (by decide) (by decide)

def bogusResponse : TransactionResponse :=
  { id := "x1", amount := 5, type := "bogus", account := "cash" }

def txBogus : Transaction :=
  { id := "x2", amount := 5, type := "bogus", account := "cash" }

/-- C4 counterexample: a wire record whose `type` is outside the nine-member
enumeration is accepted unchanged by `mapApiTransaction` (the `as` cast does
no runtime validation) and the `balances` reducer silently skips it, leaving
the summary unchanged — no rejection happens at construction time. -/
theorem unknown_type_not_rejected_counterexample :
    (mapApiTransaction bogusResponse).type = "bogus"
      ∧ "bogus" ∉ validTypes
      ∧ balances [mapApiTransaction bogusResponse] = zeroBalance := by
  refine ⟨rfl, by decide, ?_⟩
  show stepBalance zeroBalance (mapApiTransaction bogusResponse) = zeroBalance
  simp [mapApiTransaction, bogusResponse, stepBalance]

/-- C4 amended: the closed enumeration is enforced only statically by the
TypeScript types; at runtime a record with a `type` outside the enumeration
is accepted unchanged at construction and the balance reducer skips it,
leaving the accumulator unchanged. -/
theorem unknown_type_silently_skipped (acc : BalanceSummary) (tx : Transaction)
    (h : tx.type ∉ validTypes) :
    stepBalance acc tx = acc
      ∧ ∀ resp : TransactionResponse, (mapApiTransaction resp).type = resp.type := by
  constructor
  · simp only [validTypes, List.mem_cons, List.not_mem_nil, or_false, not_or] at h
    obtain ⟨h1, h2, h3, h4, h5, h6, h7, h8, h9⟩ := h
    simp [stepBalance, h1, h2, h3, h4, h5, h6, h7, h8, h9]
  · intro resp
    rfl

/-- Witness for C4's amended statement at the concrete unknown type. -/
theorem unknown_type_silently_skipped_witness :
    stepBalance zeroBalance txBogus = zeroBalance
      ∧ ∀ resp : TransactionResponse, (mapApiTransaction resp).type = resp.type :=
  unknown_type_silently_skipped zeroBalance txBogus (by decide)

/-- C7: a debt-related transaction is attributed to the contact named by a
truthy `contactId` when present; otherwise by the first case-insensitive
name match in the contact list; with neither a contact id nor a matching
name it is attributed to no contact, and the resolution is a total
function (no error is raised). -/
theorem contact_resolution (contacts : List Contact) (t : Transaction) :
    (∀ cid, t.contactId = some cid → cid ≠ "" →
        contactDataTargetId contacts t = some cid)
      ∧ (jsStrOrNone t.contactId = none →
          ∀ nm, t.contact = some nm →
            (∃ c ∈ contacts, jsToLower c.name = jsToLower nm) →
              ∃ c ∈ contacts, jsToLower c.name = jsToLower nm
                ∧ contactDataTargetId contacts t = some c.id)
      ∧ (jsStrOrNone t.contactId = none →
          (∀ nm, t.contact = some nm → ∀ c ∈ contacts, jsToLower c.name ≠ jsToLower nm) →
            contactAttribution contacts t = none) := by
  refine ⟨?_, ?_, ?_⟩
  · intro cid hcid hne
    simp [contactDataTargetId, jsStrOrNone, hcid, hne]
  · intro hnone nm hnm hex
    obtain ⟨c, hc, hmatch⟩ := hex
    have hsome : (contacts.find? (fun c =>
        match t.contact with
        | some nm => jsToLower c.name == jsToLower nm
        | none => false)).isSome := by
      rw [List.find?_isSome]
      exact ⟨c, hc, by simp [hnm, hmatch]⟩
    obtain ⟨c₀, hc₀⟩ := Option.isSome_iff_exists.mp hsome
    have hc₀mem : c₀ ∈ contacts := List.mem_of_find?_eq_some hc₀
    have hc₀p := List.find?_some hc₀
    simp only [hnm] at hc₀p
    refine ⟨c₀, hc₀mem, by simpa using hc₀p, ?_⟩
    simp [contactDataTargetId, hnone, hc₀]
  · intro hnone hnomatch
    have hfind : (contacts.find? (fun c =>
        match t.contact with
        | some nm => jsToLower c.name == jsToLower nm
        | none => false)) = none := by
      apply List.find?_eq_none.mpr
      intro c hc
      cases ht : t.contact with
      | none => simp [ht]
      | some nm =>
          simp only [ht, beq_iff_eq, decide_eq_true_eq]
          exact hnomatch nm ht c hc
    have h1 : contactDataTargetId contacts t = none := by
      simp [contactDataTargetId, hnone, hfind]
    simp [contactAttribution, h1, jsStrOrNone]

def contactAlice : Contact := { id := "c1", name := "Alice" }

def txWithContactId : Transaction :=
  { id := "t10", amount := 5, type := "credit_receivable", account := "cash",
    contact := some "Bob", contactId := some "c9" }

def txWithNameOnly : Transaction :=
  { id := "t11", amount := 5, type := "credit_receivable", account := "cash",
    contact := some "ALICE" }

def txNoContact : Transaction :=
  { id := "t12", amount := 5, type := "credit_receivable", account := "cash" }

/-- Witness for C7: id-based, case-insensitive-name-based and unresolved
attribution at concrete inputs. -/
theorem contact_resolution_witness :
    contactDataTargetId [contactAlice] txWithContactId = some "c9"
      ∧ (∃ c ∈ [contactAlice], jsToLower c.name = jsToLower "ALICE"
          ∧ contactDataTargetId [contactAlice] txWithNameOnly = some c.id)
      ∧ contactAttribution [contactAlice] txNoContact = none := by
  refine ⟨?_, ?_, ?_⟩
  · exact (contact_resolution [contactAlice] txWithContactId).1 "c9" rfl (by decide)
  · exact (contact_resolution [contactAlice] txWithNameOnly).2.1 (by decide) "ALICE" rfl
      ⟨contactAlice, by decide, by decide⟩
  · refine (contact_resolution [contactAlice] txNoContact).2.2 (by decide) ?_
    intro nm h
    simp [txNoContact] at h

theorem cash_after_adjustment (s : AppState) (a : ℚ)
    (h : 1 / 100 < |a - (balances s.transactions).cash|) :
    (balances (adjustmentTransaction (a - (balances s.transactions).cash)
      :: s.transactions)).cash = a := by
  have hb : balances (adjustmentTransaction (a - (balances s.transactions).cash)
      :: s.transactions)
      = addB (stepBalance zeroBalance
          (adjustmentTransaction (a - (balances s.transactions).cash)))
        (balances s.transactions) := by
    show List.foldl stepBalance
      (stepBalance zeroBalance (adjustmentTransaction (a - (balances s.transactions).cash)))
      s.transactions = _
    exact foldl_stepBalance_as_addB s.transactions _
  rw [hb]
  by_cases hd : 0 < a - (balances s.transactions).cash
  · simp [addB, adjustmentTransaction, hd, stepBalance, updAccount, zeroBalance,
      abs_of_pos hd]
  · have hne : a - (balances s.transactions).cash ≠ 0 := by
      intro h0
      rw [h0] at h
      norm_num at h
    have hneg : a - (balances s.transactions).cash < 0 :=
      lt_of_le_of_ne (not_lt.mp hd) hne
    simp [addB, adjustmentTransaction, hd, stepBalance, updAccount, zeroBalance,
      abs_of_neg hneg]

/-- C10: the total-cash reconciliation is a round trip.  When the reported
actual cash differs from the computed cash balance by more than `0.01`, one
adjustment transaction (account `cash`, category `adjustment`, amount the
absolute difference, type `income` when the report exceeds the balance and
`expense` otherwise) is added, and the recomputed cash balance equals the
report; otherwise the transaction list is unchanged. -/
theorem handleTotalCashUpdate_round_trip (s : AppState) (a : ℚ) :
    (1 / 100 < |a - (balances s.transactions).cash| →
        (handleTotalCashUpdate s a).transactions
            = adjustmentTransaction (a - (balances s.transactions).cash) :: s.transactions
          ∧ (adjustmentTransaction (a - (balances s.transactions).cash)).account = "cash"
          ∧ (adjustmentTransaction (a - (balances s.transactions).cash)).category
              = "adjustment"
          ∧ (adjustmentTransaction (a - (balances s.transactions).cash)).amount
              = |a - (balances s.transactions).cash|
          ∧ (adjustmentTransaction (a - (balances s.transactions).cash)).type
              = (if (balances s.transactions).cash < a then "income" else "expense")
          ∧ (balances (handleTotalCashUpdate s a).transactions).cash = a)
      ∧ (¬ 1 / 100 < |a - (balances s.transactions).cash| →
          handleTotalCashUpdate s a = s) := by
  constructor
  · intro h
    have htx : (handleTotalCashUpdate s a).transactions
        = adjustmentTransaction (a - (balances s.transactions).cash) :: s.transactions := by
      simp only [handleTotalCashUpdate]
      rw [if_pos h]
    refine ⟨htx, rfl, rfl, rfl, ?_, ?_⟩
    · simp [adjustmentTransaction, sub_pos]
    · rw [htx]
      exact cash_after_adjustment s a h
  · intro h
    simp only [handleTotalCashUpdate]
    rw [if_neg h]

/-- Witness for C10: reporting 80 over a list whose cash balance is 50. -/
theorem handleTotalCashUpdate_round_trip_witness :
    (handleTotalCashUpdate sampleState 80).transactions
        = adjustmentTransaction (80 - (balances sampleState.transactions).cash)
            :: sampleState.transactions
      ∧ (adjustmentTransaction (80 - (balances sampleState.transactions).cash)).account
          = "cash"
      ∧ (adjustmentTransaction (80 - (balances sampleState.transactions).cash)).category
          = "adjustment"
      ∧ (adjustmentTransaction (80 - (balances sampleState.transactions).cash)).amount
          = |80 - (balances sampleState.transactions).cash|
      ∧ (adjustmentTransaction (80 - (balances sampleState.transactions).cash)).type
          = (if (balances sampleState.transactions).cash < 80 then "income" else "expense")
      ∧ (balances (handleTotalCashUpdate sampleState 80).transactions).cash = 80 :=
  (handleTotalCashUpdate_round_trip sampleState 80).1
    (by norm_num +decide [balances, stepBalance, updAccount, zeroBalance, sampleState,
      txIncomeCash])

def settledDebtResponse : TransactionResponse :=
  { id := "d1", amount := 100, type := "credit_receivable", account := "cash",
    contact_name := some "Alice", remaining_amount := some 0, status := some "settled" }

def settlingPaymentResponse : TransactionResponse :=
  { id := "p1", amount := 100, type := "payment_received", account := "cash",
    linked_transaction_id := some "d1" }

/-- C2: the failing input run through the code.  The spec-modelled backend
remaining amount of a fully settled debt is `0`, but `mapApiTransaction`'s
`remaining_amount || undefined` collapses the `0` to `undefined`, so the
ledger totals and the per-contact sums fall back to `remainingAmount ??
amount` and count the face value `100` instead of `0`. -/
theorem settled_debt_counts_face_value :
    serverRemainingAmount
        [mapApiTransaction settledDebtResponse, mapApiTransaction settlingPaymentResponse]
        (mapApiTransaction settledDebtResponse) = 0
      ∧ (mapApiTransaction settledDebtResponse).remainingAmount = none
      ∧ ledgerTotals
          [mapApiTransaction settledDebtResponse, mapApiTransaction settlingPaymentResponse]
          = ⟨100, 0⟩
      ∧ contactData [contactAlice]
          [mapApiTransaction settledDebtResponse, mapApiTransaction settlingPaymentResponse]
          "c1" = ⟨100, 0⟩ := by
  refine ⟨?_, rfl, ?_, ?_⟩
  · norm_num +decide [serverRemainingAmount, mapApiTransaction, settledDebtResponse,
      settlingPaymentResponse, paymentTypeNames, jsStrOrNone, jsNumOrNone]
  · norm_num +decide [ledgerTotals, debtTxs, debtTypes, ledgerStep, mapApiTransaction,
      settledDebtResponse, settlingPaymentResponse, jsStrOrNone, jsNumOrNone]
  · norm_num +decide [contactData, debtRelatedTxs, debtTypes, paymentTypeNames, ledgerStep,
      contactAttribution, contactDataTargetId, jsToLower, mapApiTransaction,
      settledDebtResponse, settlingPaymentResponse, jsStrOrNone, jsNumOrNone, contactAlice]

end VanTrack
